import Mathlib

/-!
Shallow embedding of the CSD-spaceapp2023/webapp visualization code
(src/src/js/three.js, plus the earlier variant in src/unnamed/part_001)
and proofs about its geospatial affine-transform pipeline, render loop,
and error behavior.

JavaScript numbers are modelled as exact rationals (`ℚ`) where only
finite values flow, and as the extended type `JSNum` (finite, ±Infinity,
NaN, undefined) where the claims concern division by zero and missing
metadata fields.
-/

namespace Webapp


/-- A six-coefficient affine matrix `M`, mirroring the JS array
`[M[0], M[1], M[2], M[3], M[4], M[5]]` used by `transform`. -/
structure AffineM where
  m0 : ℚ
  m1 : ℚ
  m2 : ℚ
  m3 : ℚ
  m4 : ℚ
  m5 : ℚ
deriving DecidableEq

/-- `Math.trunc` on an exact rational: truncation toward zero.
For `v = num/den` with `den > 0`, `Int.tdiv` is exactly
truncation toward zero. -/
def truncQ (v : ℚ) : ℤ := Int.tdiv v.num (v.den : ℤ)

/-- `v | 0` in JavaScript: ToInt32 — truncate toward zero, then wrap
modulo 2^32 into the signed 32-bit range. -/
def toInt32 (v : ℚ) : ℤ :=
  if truncQ v % 4294967296 < 2147483648 then truncQ v % 4294967296
  else truncQ v % 4294967296 - 4294967296

/-- `transform` from src/src/js/three.js (lines 34-37):
`round = (v) => (roundToInt ? Math.trunc(v) : v)`;
returns `[round(M[0] + M[1]*a + M[2]*b), round(M[3] + M[4]*a + M[5]*b)]`. -/
def transform (a b : ℚ) (M : AffineM) (roundToInt : Bool) : ℚ × ℚ :=
  let round : ℚ → ℚ := fun v => if roundToInt then ((truncQ v : ℤ) : ℚ) else v
  (round (M.m0 + M.m1 * a + M.m2 * b), round (M.m3 + M.m4 * a + M.m5 * b))

/-- `transform` from the earlier variant src/unnamed/part_001 (lines 20-26):
identical except the rounding is `v | 0` (ToInt32) instead of `Math.trunc`. -/
def transformV2 (a b : ℚ) (M : AffineM) (roundToInt : Bool) : ℚ × ℚ :=
  let round : ℚ → ℚ := fun v => if roundToInt then ((toInt32 v : ℤ) : ℚ) else v
  (round (M.m0 + M.m1 * a + M.m2 * b), round (M.m3 + M.m4 * a + M.m5 * b))

/-- The matrix construction from `loadMethaneAssets`
(src/src/js/three.js lines 218-228), for finite metadata:
`sy = -sy` (flip), `pixelToGPS = [gx, sx, 0, gy, 0, sy]`,
`gpsToPixel = [-gx/sx, 1/sx, 0, -gy/sy, 0, 1/sy]`.
`sy0` is the raw `ModelPixelScale` y component before the sign flip. -/
def geoMatrices (sx sy0 gx gy : ℚ) : AffineM × AffineM :=
  let sy := -sy0
  (⟨gx, sx, 0, gy, 0, sy⟩, ⟨-gx / sx, 1 / sx, 0, -gy / sy, 0, 1 / sy⟩)

/-- The `layers` object of the `Three` class (src/src/js/three.js lines
64-69 and 123-128): four boolean visibility flags. -/
structure Layers where
  earth : Bool
  methane : Bool
  cow : Bool
  someCrop : Bool
deriving DecidableEq

/-- The mutable state of a `Three` instance that the render tick and the
GUI bindings touch: the `layers` object, the three scale fields, the
`visible` flags of the two meshes built by `setGeometry` (`planeMesh` and
`methaneMesh`), and a count of draws issued by `renderer.render`. -/
structure ThreeState where
  layers : Layers
  scaleX : ℚ
  scaleY : ℚ
  scaleZ : ℚ
  planeMeshVisible : Bool
  methaneMeshVisible : Bool
  drawCount : Nat
deriving DecidableEq

/-- One tick of `Three.render` (src/src/js/three.js lines 268-278): sets
`planeMesh.visible = this.layers.earth` and
`methaneMesh.visible = this.layers.methane`, then issues one
`renderer.render(scene, camera)` draw and schedules the next tick.
(`elapsedTime` is read but unused.) -/
def renderTick (s : ThreeState) : ThreeState :=
  { s with
    planeMeshVisible := s.layers.earth
    methaneMeshVisible := s.layers.methane
    drawCount := s.drawCount + 1 }

/-- The layer names declared by `setup_params` and bound in `renderUI`
(src/src/js/three.js lines 123-128 and 149-154). -/
def declaredLayers : List String := ["earth", "methane", "cow", "someCrop"]

/-- The layers for which the scene actually holds a mesh: `setGeometry`
(lines 165-193) builds only `planeMesh` and `methaneMesh`, which
`render` (lines 273-274) syncs from `layers.earth` and `layers.methane`
respectively. No mesh exists for `cow` or `someCrop`. -/
def meshLayers : List String := ["earth", "methane"]

/-- Modelled from the spec: the clamping behavior of the dat.gui slider
controllers that `renderUI` creates with `f1.add(this, 'scaleX', 0.1, 5)`
(and likewise for `scaleY`, `scaleZ`; src/src/js/three.js lines 143-147).
The controller implementation lives in the dat.gui dependency, outside
this repository; per the spec, a value assigned through the controller is
clamped to the configured `[min, max]` range, never rejected. -/
def guiClamp (lo hi v : ℚ) : ℚ := min (max v lo) hi

/-- Assignment of `scaleX` through its slider (configured range 0.1-5). -/
def setScaleX (s : ThreeState) (v : ℚ) : ThreeState :=
  { s with scaleX := guiClamp (1/10) 5 v }

/-- Assignment of `scaleY` through its slider (configured range 0.1-5). -/
def setScaleY (s : ThreeState) (v : ℚ) : ThreeState :=
  { s with scaleY := guiClamp (1/10) 5 v }

/-- Assignment of `scaleZ` through its slider (configured range 0.1-5). -/
def setScaleZ (s : ThreeState) (v : ℚ) : ThreeState :=
  { s with scaleZ := guiClamp (1/10) 5 v }

/-- The viewport-facing state owned by the constructor and `onResize`:
renderer surface size, the renderer's applied pixel ratio (named
`pixelDensity` here), and the camera aspect ratio. -/
structure Viewport where
  surfaceWidth : ℚ
  surfaceHeight : ℚ
  pixelDensity : ℚ
  cameraAspect : ℚ
deriving DecidableEq

/-- The sizing part of the `Three` constructor (src/src/js/three.js lines
76-94): `renderer.setSize(device.width, device.height)` and
`renderer.setPixelRatio(Math.min(device.pixelRatio, 2))`, with the camera
aspect `device.width / device.height`. -/
def initViewport (winW winH deviceDensity : ℚ) : Viewport :=
  { surfaceWidth := winW
    surfaceHeight := winH
    pixelDensity := min deviceDensity 2
    cameraAspect := winW / winH }

/-- `Three.onResize` (src/src/js/three.js lines 286-295): reads the new
window size and device pixel ratio, updates the camera aspect, resizes the
renderer, and re-applies `Math.min(device.pixelRatio, 2)`. -/
def onResize (winW winH deviceDensity : ℚ) (v : Viewport) : Viewport :=
  { v with
    surfaceWidth := winW
    surfaceHeight := winH
    pixelDensity := min deviceDensity 2
    cameraAspect := winW / winH }

/-- JavaScript numeric values as seen by the metadata path of
`loadMethaneAssets`: finite doubles are modelled as exact rationals;
Infinity, NaN and `undefined` (the result of destructuring a too-short
array) are explicit. Signed zero is not distinguished: the single
rational 0 stands for JS +0. -/
inductive JSNum where
  | fin : ℚ → JSNum
  | posInf : JSNum
  | negInf : JSNum
  | nan : JSNum
  | undefVal : JSNum
deriving DecidableEq

/-- JS unary minus: finite values negate, infinities flip, NaN stays NaN,
and `undefined` coerces to NaN. -/
def jsNeg : JSNum → JSNum
  | .fin q => .fin (-q)
  | .posInf => .negInf
  | .negInf => .posInf
  | .nan => .nan
  | .undefVal => .nan

/-- JS division for the cases arising in `loadMethaneAssets`: finite
values divide exactly, except that dividing a non-zero value by zero
yields a signed Infinity and 0/0 yields NaN; a NaN or `undefined` operand
yields NaN. -/
def jsDiv : JSNum → JSNum → JSNum
  | .fin x, .fin y =>
    if y = 0 then (if x = 0 then .nan else if 0 < x then .posInf else .negInf)
    else .fin (x / y)
  | .fin _, .posInf => .fin 0
  | .fin _, .negInf => .fin 0
  | .posInf, .fin y => if 0 ≤ y then .posInf else .negInf
  | .negInf, .fin y => if 0 ≤ y then .negInf else .posInf
  | _, _ => .nan

/-- The only exception the metadata path of `loadMethaneAssets` can
actually raise: array-destructuring `undefined` (a missing
`ModelPixelScale` or `ModelTiepoint` entry in `image.fileDirectory`)
throws a TypeError, which rejects the un-awaited async call. -/
inductive JSError where
  | typeError : JSError
deriving DecidableEq

/-- JS array-destructuring element access: a missing element is
`undefined`. -/
def elt (l : List ℚ) (i : Nat) : JSNum :=
  match l.get? i with
  | some q => .fin q
  | none => .undefVal

/-- The georeferencing section of `loadMethaneAssets`
(src/src/js/three.js lines 218-228) over JS values: destructures
`ModelPixelScale` into `[sx, sy, sz]` and `ModelTiepoint` into
`[px, py, k, gx, gy, gz]` (throwing a TypeError when a tag is absent,
i.e. `none`), flips `sy`, and builds the `pixelToGPS` and `gpsToPixel`
coefficient arrays. -/
def loadGeoTransforms :
    Option (List ℚ) → Option (List ℚ) → Except JSError (List JSNum × List JSNum)
  | none, _ => .error .typeError
  | some _, none => .error .typeError
  | some s, some t =>
    let sx := elt s 0
    let sy0 := elt s 1
    let gx := elt t 3
    let gy := elt t 4
    let sy := jsNeg sy0
    .ok ([gx, sx, .fin 0, gy, .fin 0, sy],
         [jsDiv (jsNeg gx) sx, jsDiv (.fin 1) sx, .fin 0,
          jsDiv (jsNeg gy) sy, .fin 0, jsDiv (.fin 1) sy])

/-- Renderer state relevant to offscreen texture synthesis: `target` is
the active render-target binding (`none` is the default framebuffer, the
canvas), `nextId` supplies fresh render-target identities, and `drawLog`
records the binding each `renderer.render` call drew into. -/
structure RTState where
  target : Option Nat
  nextId : Nat
  drawLog : List (Option Nat)
deriving DecidableEq

/-- `Three.generateTexture` (src/src/js/three.js lines 240-265): creates a
render target, saves `orig = renderer.getRenderTarget()`, binds the new
target, draws the texture scene into it, restores `orig`, clears, and
returns the target's texture (modelled as the target's id). -/
def generateTexture (r : RTState) : RTState × Nat :=
  let renderTarget := r.nextId
  let orig := r.target
  let r1 : RTState := { r with nextId := r.nextId + 1, target := some renderTarget }
  let r2 : RTState := { r1 with drawLog := r1.drawLog ++ [r1.target] }
  let r3 : RTState := { r2 with target := orig }
  (r3, renderTarget)

/-- `generateTexture` from the earlier variant src/unnamed/part_001
(lines 180-204): the `setRenderTarget` calls are commented out, and the
draw passes the target as a third argument to `renderer.render`, which
the three.js release in use (^0.157) ignores — the active binding is
never changed. -/
def generateTextureV2 (r : RTState) : RTState × Nat :=
  let renderTarget := r.nextId
  let r1 : RTState := { r with nextId := r.nextId + 1 }
  let r2 : RTState := { r1 with drawLog := r1.drawLog ++ [r1.target] }
  (r2, renderTarget)

end Webapp

open Webapp

namespace Webapp

/-- Truncation toward zero of an integer-valued rational is that integer. -/
theorem truncQ_intCast (n : ℤ) : truncQ (n : ℚ) = n := by
  simp [truncQ, Rat.num_intCast, Rat.den_intCast, Int.tdiv_one]

/-- ToInt32 agrees with truncation toward zero exactly on the signed
32-bit range of truncated values. -/
theorem toInt32_eq_truncQ (v : ℚ)
    (h1 : -2147483648 ≤ truncQ v) (h2 : truncQ v < 2147483648) :
    toInt32 v = truncQ v := by
  unfold toInt32
  split <;> omega

end Webapp

/-- C1: for any pixel coordinate, applying the forward transform built by
`loadMethaneAssets` and then its inverse via `transform` returns the
original coordinate — exactly, over exact rational arithmetic, whenever
both scale components are non-zero (so a fortiori within any
floating-point tolerance). -/
theorem roundtrip_pixel_gps (sx sy0 gx gy px py : ℚ)
    (hsx : sx ≠ 0) (hsy : sy0 ≠ 0) :
    (let F := (geoMatrices sx sy0 gx gy).1
     let G := (geoMatrices sx sy0 gx gy).2
     let p := transform px py F false
     transform p.1 p.2 G false) = (px, py) := by
  have hsy' : -sy0 ≠ 0 := neg_ne_zero.mpr hsy
  simp only [geoMatrices, transform, Bool.false_eq_true, if_false]
  refine Prod.ext ?_ ?_ <;> field_simp <;> ring

/-- Witness for C1 at concrete metadata `sx = 1/100`, `sy0 = 1/100`,
`gx = -100`, `gy = 40`, pixel `(7, 13)`. -/
theorem roundtrip_pixel_gps_witness :
    (1 : ℚ) / 100 ≠ 0 ∧
    (let F := (geoMatrices (1/100) (1/100) (-100) 40).1
     let G := (geoMatrices (1/100) (1/100) (-100) 40).2
     let p := transform 7 13 F false
     transform p.1 p.2 G false) = ((7 : ℚ), (13 : ℚ)) :=
  ⟨by norm_num, roundtrip_pixel_gps (1/100) (1/100) (-100) 40 7 13
    (by norm_num) (by norm_num)⟩

/-- C2: for `pixelScale = (0.01, 0.01, 0)` and
`tiePoint = (0, 0, 0, -100, 40, 0)`, the forward transform derived by
`loadMethaneAssets` (sy sign flipped) maps pixel `(0,0)` to `(-100, 40)`
and pixel `(1000, 1000)` to `(-90, 30)`. -/
theorem forward_end_to_end :
    transform 0 0 (geoMatrices (1/100) (1/100) (-100) 40).1 false
      = (-100, 40) ∧
    transform 1000 1000 (geoMatrices (1/100) (1/100) (-100) 40).1 false
      = (-90, 30) := by
  constructor <;> · simp only [geoMatrices, transform]; norm_num

/-- C6 counterexample: the claim fails for the part_001 variant of
`transform`, whose rounding is `v | 0` (ToInt32): at output value
2147483648 the rounded result wraps to -2147483648 instead of truncating
toward zero (Math.trunc would give 2147483648). -/
theorem transform_trunc_cex :
    (transformV2 0 0 ⟨2147483648, 0, 0, 0, 0, 0⟩ true).1
      ≠ ((truncQ ((transformV2 0 0 ⟨2147483648, 0, 0, 0, 0, 0⟩ false).1) : ℤ) : ℚ) := by
  have hv : (2147483648 : ℚ) + 0 * 0 + 0 * 0 = ((2147483648 : ℤ) : ℚ) := by
    norm_num
  have hm : ((2147483648 : ℤ) % 4294967296) = 2147483648 := by decide
  simp only [transformV2, hv, eq_self_iff_true, if_true, Bool.false_eq_true, if_false,
    Webapp.toInt32, Webapp.truncQ_intCast, hm, lt_self_iff_false]
  have hs : (2147483648 - 4294967296 : ℤ) = -2147483648 := by decide
  rw [hs]
  intro h
  have h2 : (-2147483648 : ℤ) = 2147483648 := by exact_mod_cast h
  exact absurd h2 (by decide)

/-- C6 amended: the authoritative variant of `transform`
(src/src/js/three.js, `Math.trunc`) truncates each output toward zero for
all inputs; the earlier part_001 variant (`v | 0`) agrees with truncation
toward zero only when the truncated outputs lie within the signed 32-bit
range, wrapping modulo 2^32 outside it. -/
theorem transform_trunc_toward_zero :
    (∀ (a b : ℚ) (M : AffineM),
      transform a b M true
        = (((truncQ ((transform a b M false).1) : ℤ) : ℚ),
           ((truncQ ((transform a b M false).2) : ℤ) : ℚ))) ∧
    (∀ (a b : ℚ) (M : AffineM),
      -2147483648 ≤ truncQ ((transformV2 a b M false).1) →
      truncQ ((transformV2 a b M false).1) < 2147483648 →
      -2147483648 ≤ truncQ ((transformV2 a b M false).2) →
      truncQ ((transformV2 a b M false).2) < 2147483648 →
      transformV2 a b M true
        = (((truncQ ((transformV2 a b M false).1) : ℤ) : ℚ),
           ((truncQ ((transformV2 a b M false).2) : ℤ) : ℚ))) := by
  constructor
  · intro a b M
    simp [transform]
  · intro a b M h1 h2 h3 h4
    have e1 := Webapp.toInt32_eq_truncQ _ h1 h2
    have e2 := Webapp.toInt32_eq_truncQ _ h3 h4
    show (((Webapp.toInt32 ((transformV2 a b M false).1) : ℤ) : ℚ),
          ((Webapp.toInt32 ((transformV2 a b M false).2) : ℤ) : ℚ))
        = (((truncQ ((transformV2 a b M false).1) : ℤ) : ℚ),
           ((truncQ ((transformV2 a b M false).2) : ℤ) : ℚ))
    rw [e1, e2]

/-- Witness for the part_001 half of the amended C6 statement, at the
in-range matrix `⟨3, 0, 0, -4, 0, 0⟩` and pixel `(0, 0)`. -/
theorem transform_trunc_toward_zero_witness :
    (-2147483648 ≤ truncQ ((transformV2 0 0 ⟨3, 0, 0, -4, 0, 0⟩ false).1)) ∧
    transformV2 0 0 ⟨3, 0, 0, -4, 0, 0⟩ true
      = (((truncQ ((transformV2 0 0 ⟨3, 0, 0, -4, 0, 0⟩ false).1) : ℤ) : ℚ),
         ((truncQ ((transformV2 0 0 ⟨3, 0, 0, -4, 0, 0⟩ false).2) : ℤ) : ℚ)) := by
  have e1 : (transformV2 0 0 ⟨3, 0, 0, -4, 0, 0⟩ false).1 = ((3 : ℤ) : ℚ) := by
    norm_num [transformV2]
  have e2 : (transformV2 0 0 ⟨3, 0, 0, -4, 0, 0⟩ false).2 = ((-4 : ℤ) : ℚ) := by
    norm_num [transformV2]
  have t1 : truncQ ((transformV2 0 0 ⟨3, 0, 0, -4, 0, 0⟩ false).1) = 3 := by
    rw [e1, Webapp.truncQ_intCast]
  have t2 : truncQ ((transformV2 0 0 ⟨3, 0, 0, -4, 0, 0⟩ false).2) = -4 := by
    rw [e2, Webapp.truncQ_intCast]
  exact ⟨by rw [t1]; decide,
    transform_trunc_toward_zero.2 0 0 ⟨3, 0, 0, -4, 0, 0⟩
      (by rw [t1]; decide) (by rw [t1]; decide) (by rw [t2]; decide) (by rw [t2]; decide)⟩

/-- C3 counterexample: the scene composer does not hold one mesh per
declared layer — `cow` is a declared layer but has no mesh (`setGeometry`
builds only `planeMesh` and `methaneMesh`), so no render tick can set a
cow mesh's visible flag. -/
theorem mesh_per_layer_cex :
    "cow" ∈ Webapp.declaredLayers ∧ "cow" ∉ Webapp.meshLayers := by
  constructor <;> decide

/-- C3 amended: the scene holds meshes only for the earth and methane
layers; each render tick sets `planeMesh.visible` from `layers.earth` and
`methaneMesh.visible` from `layers.methane` (so with `layers.methane =
true` the methane mesh is visible after one tick), and toggling one of
these layers then ticking changes only the corresponding mesh's flag. -/
theorem visibility_sync (s : Webapp.ThreeState) :
    ((Webapp.renderTick s).planeMeshVisible = s.layers.earth ∧
     (Webapp.renderTick s).methaneMeshVisible = s.layers.methane) ∧
    (∀ b : Bool,
      (Webapp.renderTick { s with layers := { s.layers with methane := b } }).planeMeshVisible
        = (Webapp.renderTick s).planeMeshVisible ∧
      (Webapp.renderTick { s with layers := { s.layers with methane := b } }).methaneMeshVisible
        = b) ∧
    (∀ b : Bool,
      (Webapp.renderTick { s with layers := { s.layers with earth := b } }).methaneMeshVisible
        = (Webapp.renderTick s).methaneMeshVisible ∧
      (Webapp.renderTick { s with layers := { s.layers with earth := b } }).planeMeshVisible
        = b) := by
  refine ⟨⟨rfl, rfl⟩, fun b => ⟨rfl, rfl⟩, fun b => ⟨rfl, rfl⟩⟩

/-- C4: every value assigned to `scaleX`, `scaleY` or `scaleZ` through its
configured slider is clamped into [0.1, 5] (and in particular never
rejected): 10 is applied as 5 and 0.01 as 0.1. -/
theorem scale_clamp (s : Webapp.ThreeState) (v : ℚ) :
    (1/10 ≤ (Webapp.setScaleX s v).scaleX ∧ (Webapp.setScaleX s v).scaleX ≤ 5) ∧
    (1/10 ≤ (Webapp.setScaleY s v).scaleY ∧ (Webapp.setScaleY s v).scaleY ≤ 5) ∧
    (1/10 ≤ (Webapp.setScaleZ s v).scaleZ ∧ (Webapp.setScaleZ s v).scaleZ ≤ 5) ∧
    (Webapp.setScaleX s 10).scaleX = 5 ∧
    (Webapp.setScaleX s (1/100)).scaleX = 1/10 := by
  have hb : ∀ w : ℚ, 1/10 ≤ Webapp.guiClamp (1/10) 5 w ∧ Webapp.guiClamp (1/10) 5 w ≤ 5 := by
    intro w
    constructor
    · exact le_min (le_max_right w (1/10)) (by norm_num)
    · exact min_le_right _ _
  refine ⟨hb v, hb v, hb v, ?_, ?_⟩
  · show Webapp.guiClamp (1/10) 5 10 = 5
    rw [Webapp.guiClamp, max_eq_left (by norm_num), min_eq_right (by norm_num)]
  · show Webapp.guiClamp (1/10) 5 (1/100) = 1/10
    rw [Webapp.guiClamp, max_eq_right (by norm_num), min_eq_left (by norm_num)]

/-- C5: the pixel ratio applied to the renderer equals `min(r, 2)` for any
device pixel ratio `r`, both at construction and on every resize. -/
theorem pixel_density_clamp (winW winH r : ℚ) (v : Webapp.Viewport) :
    (Webapp.initViewport winW winH r).pixelDensity = min r 2 ∧
    (Webapp.onResize winW winH r v).pixelDensity = min r 2 :=
  ⟨rfl, rfl⟩

/-- C10: a render tick reads only `layers.earth` and `layers.methane`:
runs differing only in `layers.cow` and/or `layers.someCrop` produce
identical mesh visible flags, draw counts, and every other field the tick
writes — the full post-tick states agree except on the injected layer
flags themselves. -/
theorem render_ignores_cow_someCrop (s : Webapp.ThreeState) (c sc : Bool) :
    Webapp.renderTick { s with layers := { s.layers with cow := c, someCrop := sc } }
      = { Webapp.renderTick s with
          layers := { s.layers with cow := c, someCrop := sc } } :=
  rfl

/-- C7 counterexample: with the degenerate metadata
`ModelPixelScale = (0, 10, 0)` (so `sx = 0`, determinant 0) and
`ModelTiepoint = (0, 0, 0, -100, 40, 0)`, deriving the transforms does not
fail at all — it succeeds, and the `1/sx` coefficient of `gpsToPixel` is
+Infinity. -/
theorem degenerate_no_error_cex :
    (Webapp.loadGeoTransforms (some [0, 10, 0])
        (some [0, 0, 0, -100, 40, 0])).toOption.map (fun p => p.2.get? 1)
      = some (some Webapp.JSNum.posInf) := by
  rfl

/-- C7 amended: when `sx = 0` the code raises no error of any kind (there
is no DegenerateTransform check): the derivation succeeds and the `1/sx`
inverse coefficient is +Infinity, for any remaining metadata values. -/
theorem degenerate_produces_inf (sy0 sz : ℚ) (t : List ℚ) :
    (Webapp.loadGeoTransforms (some [0, sy0, sz])
        (some t)).toOption.map (fun p => p.2.get? 1)
      = some (some Webapp.JSNum.posInf) := by
  rfl

/-- C8 counterexample: a `ModelPixelScale` tag with the wrong element
count (`[0.01]` instead of three entries) produces no error whatsoever:
the derivation succeeds, with the missing `sy` flowing through as NaN in
the forward matrix. -/
theorem invalid_metadata_cex :
    (Webapp.loadGeoTransforms (some [1/100])
        (some [0, 0, 0, -100, 40, 0])).isOk = true ∧
    (Webapp.loadGeoTransforms (some [1/100])
        (some [0, 0, 0, -100, 40, 0])).toOption.map (fun p => p.1.get? 5)
      = some (some Webapp.JSNum.nan) := by
  exact ⟨rfl, rfl⟩

/-- C8 amended: the metadata path fails only when a georeferencing tag is
entirely absent — and then with a TypeError from destructuring
`undefined` (rejecting the un-awaited promise, not reporting an
InvalidMetadata error); a present tag with the wrong element count raises
no error at all, its missing components flowing through as
undefined/NaN. -/
theorem metadata_error_behavior (s? t? : Option (List ℚ)) :
    (Webapp.loadGeoTransforms s? t?).isOk = (s?.isSome && t?.isSome) ∧
    Webapp.loadGeoTransforms none t? = .error Webapp.JSError.typeError ∧
    Webapp.loadGeoTransforms s? none = .error Webapp.JSError.typeError := by
  refine ⟨?_, rfl, ?_⟩
  · cases s? <;> cases t? <;> rfl
  · cases s? <;> rfl

/-- C9: after overlay texture synthesis completes, the renderer's active
render-target binding equals the binding it had before synthesis began —
`generateTexture` saves the prior binding, draws offscreen, and restores
it (and the part_001 variant never rebinds at all). -/
theorem render_target_restored (r : Webapp.RTState) :
    ((Webapp.generateTexture r).1).target = r.target ∧
    ((Webapp.generateTextureV2 r).1).target = r.target :=
  ⟨rfl, rfl⟩
